import Mathlib

/- Shallow embedding of the mock-interview backend core
   (backend/app/services/interview_service.py, backend/app/schemas.py,
   backend/app/utils/prompt_templates.py).

   Python dictionaries are modelled as association lists with the usual
   update-in-place-or-append assignment semantics; floats are modelled as
   rationals; datetime.utcnow() is modelled by a natural-number timestamp
   supplied by the caller; uuid4() is modelled by an identifier string
   supplied by the caller.  The LLM Gateway is an external collaborator:
   each operation receives the outcome of its single Gateway call as an
   argument (either the parsed JSON content, or failure, which covers both
   transport errors and the ValueError raised by
   AzureOpenAILLM.extract_content on unparseable output).  Python
   exception semantics over the shared mutable session store are modelled
   by returning the post-operation store together with an ok/err outcome. -/

namespace MockInterview

/-- Association-list lookup, mirroring Python dict indexing and `dict.get`. -/
def dget? {α : Type} : List (String × α) → String → Option α
  | [], _ => none
  | (k, v) :: rest, key => if k = key then some v else dget? rest key

/-- Lookup with a default value, mirroring `dict.get(key, default)`. -/
def dgetD {α : Type} (d : List (String × α)) (key : String) (dflt : α) : α :=
  (dget? d key).getD dflt

/-- Dict assignment `d[key] = v`: update in place if the key exists,
append otherwise. -/
def dset {α : Type} : List (String × α) → String → α → List (String × α)
  | [], key, v => [(key, v)]
  | (k, w) :: rest, key, v =>
      if k = key then (k, v) :: rest else (k, w) :: dset rest key v

/-- Dict `setdefault(key, v)`: insert the default only when the key is
absent. -/
def dsetdefault {α : Type} (d : List (String × α)) (key : String) (v : α) :
    List (String × α) :=
  match dget? d key with
  | some _ => d
  | none => d ++ [(key, v)]

/-- A dict representation has no duplicate keys (true of every Python dict). -/
def NodupKeys {α : Type} (d : List (String × α)) : Prop :=
  (d.map Prod.fst).Nodup

/-- A JSON scalar as it may appear as a rubric score value in the payload of
the Gateway. -/
inductive JsonVal where
  | num (q : ℚ)
  | str (s : String)
  | null
  deriving DecidableEq

/-- The check `isinstance(value, (int, float))` from
InterviewSession.record_scores. -/
def isNumeric : JsonVal → Bool
  | .num _ => true
  | _ => false

/-- The coercion `float(value)` applied to values that passed the numeric
check. -/
def floatValue : JsonVal → ℚ
  | .num q => q
  | _ => 0

/-- A run of decimal digits parsed as a natural number (none when the run
is empty or holds a non-digit). -/
def decDigits (cs : List Char) : Option ℕ :=
  match cs with
  | [] => none
  | _ =>
      if cs.all (fun ch => ch.isDigit) then
        some (cs.foldl (fun n ch => 10 * n + (ch.toNat - 48)) 0)
      else none

/-- An unsigned plain decimal literal (digits with an optional fractional
part) as a rational. -/
def parseDecimal (cs : List Char) : Option ℚ :=
  match cs.splitOn '.' with
  | [intPart] => (decDigits intPart).map (fun n => (n : ℚ))
  | [intPart, fracPart] =>
      match decDigits intPart, decDigits fracPart with
      | some i, some f =>
          some ((i : ℚ) + (f : ℚ) / ((10 : ℚ) ^ fracPart.length))
      | _, _ => none
  | _ => none

/-- The string-to-float coercion pydantic v2 applies in lax mode to a str
value of a float field: an optionally signed plain decimal literal parses,
any other string is rejected.  (Exotic accepted spellings such as exponent
notation or infinities lie outside the inputs traced here.) -/
def pyFloatOfString (s : String) : Option ℚ :=
  match s.toList with
  | [] => none
  | ch :: rest =>
      if ch = '-' then (parseDecimal rest).map (fun q => -q)
      else if ch = '+' then parseDecimal rest
      else parseDecimal (ch :: rest)

/-- The pydantic v2 lax coercion of one rubric score value to float:
numbers pass through, numeric strings are parsed, anything else (null,
non-numeric text) is rejected. -/
def coerceFloat : JsonVal → Option ℚ
  | .num q => some q
  | .str s => pyFloatOfString s
  | .null => none

/-- Validation of a raw rubric_scores mapping against the pydantic field
type dict[str, float] of EvaluationSnapshot: every value must coerce to a
float, otherwise the model construction raises a ValidationError (none
here). -/
def rubricValidate : List (String × JsonVal) → Option (List (String × ℚ))
  | [] => some []
  | (skill, v) :: rest =>
      match coerceFloat v, rubricValidate rest with
      | some q, some tail => some ((skill, q) :: tail)
      | _, _ => none

/-- FocusArea enum from backend/app/schemas.py. -/
inductive FocusArea where
  | advanced_formulas
  | data_analysis
  | automation
  | dashboards
  | data_modeling
  deriving DecidableEq

/-- WorkbookPlatform enum from backend/app/schemas.py. -/
inductive WorkbookPlatform where
  | microsoft_excel
  | google_sheets
  deriving DecidableEq

/-- CandidateProfile from backend/app/schemas.py. -/
structure CandidateProfile where
  name : String
  current_role : String
  years_experience : ℚ
  target_role : String
  focus_areas : List FocusArea
  deriving DecidableEq

/-- SessionCreateRequest from backend/app/schemas.py. -/
structure SessionCreateRequest where
  candidate : CandidateProfile
  scenario : String
  workbook_platform : WorkbookPlatform
  deriving DecidableEq

/-- One role-tagged entry of the LLM message history
(`session.messages` holds plain role/content string dicts). -/
structure Message where
  role : String
  content : String
  deriving DecidableEq

/-- ChatMessage from backend/app/schemas.py. -/
structure ChatMessage where
  role : String
  content : String
  created_at : ℕ
  deriving DecidableEq

/-- EvaluationSnapshot from backend/app/schemas.py.  The pydantic model
declares rubric_scores as dict[str, float], so construction validates the
raw payload values: numbers and numeric strings are coerced to float,
anything else raises a ValidationError; a successfully built snapshot
therefore holds floats only. -/
structure EvaluationSnapshot where
  summary : String
  strengths : List String
  gaps : List String
  rubric_scores : List (String × ℚ)
  recommendation : String
  deriving DecidableEq

/-- ChatTurn from backend/app/schemas.py. -/
structure ChatTurn where
  candidate_message : Option ChatMessage
  interviewer_message : ChatMessage
  evaluation : Option EvaluationSnapshot
  next_best_action : Option String
  deriving DecidableEq

/-- ArtifactSource: the `source` literal of SubmissionArtifact. -/
inductive ArtifactSource where
  | file
  | link
  deriving DecidableEq

/-- SubmissionArtifact from backend/app/schemas.py. -/
structure SubmissionArtifact where
  id : String
  source : ArtifactSource
  filename : Option String
  content_type : Option String
  size_bytes : Option ℕ
  uploaded_at : ℕ
  description : String
  url : Option String
  storage_path : Option String
  deriving DecidableEq

/-- The `evaluation` object of the structured Gateway response, with every
sub-field optional (absent sub-fields are defaulted by _record_ai_turn). -/
structure EvaluationPayload where
  summary : Option String
  strengths : Option (List String)
  gaps : Option (List String)
  rubric_scores : Option (List (String × JsonVal))
  recommendation : Option String
  deriving DecidableEq

/-- The parsed top-level JSON content of a Gateway chat response as
consumed by _record_ai_turn via `content.get(...)`.  The field
`evaluation` is `none` exactly when `content.get("evaluation") or \x7b\x7d`
is falsy, that is when the key is absent, None, or an empty object. -/
structure GatewayContent where
  interviewer_message : Option String
  evaluation : Option EvaluationPayload
  next_best_action : Option String
  deriving DecidableEq

/-- The parsed top-level JSON content of the Gateway summary response as
consumed by InterviewService.summarize via `content.get(...)`. -/
structure SummaryContent where
  overall_summary : Option String
  scorecard : Option (List (String × ℚ))
  next_steps : Option (List String)
  deriving DecidableEq

/-- Outcome of the single Gateway call inside an operation: parsed content,
or failure (transport error, or the ValueError raised by
AzureOpenAILLM.extract_content when the response cannot be parsed). -/
inductive GatewayResult (α : Type) where
  | ok (content : α)
  | failed
  deriving DecidableEq

/-- Error taxonomy of the core, as surfaced to the HTTP layer: KeyError
for unknown session/artifact ids, ValueError for artifact validation
failures, the pydantic ValidationError raised when the EvaluationSnapshot
rubric_scores fail float validation, and Gateway failures propagated
unchanged. -/
inductive SvcError where
  | sessionNotFound (session_id : String)
  | artifactNotFound (artifact_id : String)
  | validationError (message : String)
  | evaluationValidationError
  | gatewayError
  deriving DecidableEq

/-- Result of one externally visible operation. -/
inductive OpResult (α : Type) where
  | ok (value : α)
  | err (error : SvcError)
  deriving DecidableEq

/-- ChatResponse from backend/app/schemas.py. -/
structure ChatResponse where
  turn : ChatTurn
  running_scores : List (String × ℚ)
  total_turns : ℕ
  deriving DecidableEq

/-- SummaryResponse from backend/app/schemas.py. -/
structure SummaryResponse where
  session_id : String
  transcript : List ChatTurn
  final_summary : String
  recommended_next_steps : List String
  overall_scores : List (String × ℚ)
  deriving DecidableEq

/-- SessionCreateResponse from backend/app/schemas.py. -/
structure SessionCreateResponse where
  session_id : String
  first_turn : ChatTurn
  deriving DecidableEq

/-- SKILL_RUBRIC from backend/app/utils/prompt_templates.py. -/
def SKILL_RUBRIC : List (String × String) :=
  [("excel_functions",
    "Ability to apply advanced formulas (INDEX/MATCH, XLOOKUP, array formulas)."),
   ("data_analysis",
    "Skill in manipulating, cleaning, and analyzing datasets using tables, pivot tables, and Power Query."),
   ("automation",
    "Proficiency with macros, VBA, Office Scripts, and process automation within Excel."),
   ("business_acumen",
    "Ability to translate business problems into analytical Excel solutions and communicate insights."),
   ("storytelling",
    "Clarity and structure when presenting findings, including dashboards and executive-ready narratives.")]

/-- Iterating `for skill in SKILL_RUBRIC` yields the keys of the rubric
dict in insertion order. -/
def SKILL_RUBRIC_KEYS : List String := SKILL_RUBRIC.map Prod.fst

/-- InterviewSession from
backend/app/services/interview_service.py (dataclass). -/
structure InterviewSession where
  session_id : String
  candidate : CandidateProfile
  scenario : String
  focus_areas : List FocusArea
  workbook_platform : WorkbookPlatform
  messages : List Message
  transcript : List ChatTurn
  score_totals : List (String × ℚ)
  score_counts : List (String × ℕ)
  artifacts : List (String × SubmissionArtifact)
  created_at : ℕ
  updated_at : ℕ
  deriving DecidableEq

/-- The in-memory state of InterviewService: the session store plus the
upload configuration (the storage directory and the byte limit given to
the constructor). -/
structure InterviewService where
  sessions : List (String × InterviewSession)
  storage_dir : String
  max_upload_bytes : ℕ
  deriving DecidableEq

/-- Default of the `max_upload_bytes` constructor argument
(10 * 1024 * 1024 bytes, that is 10 MiB). -/
def DEFAULT_MAX_UPLOAD_BYTES : ℕ := 10 * 1024 * 1024

/-- ALLOWED_FILE_EXTENSIONS from InterviewService. -/
def ALLOWED_FILE_EXTENSIONS : List String :=
  [".xlsx", ".xlsm", ".xlsb", ".xls", ".csv", ".tsv", ".ods"]

/-- The loop body of InterviewSession.record_scores: for each entry whose
value passes the numeric check, add the value to the running total, bump
the count, and record the new average in `updated`; other entries are
skipped. -/
def record_scores_aux (score_totals : List (String × ℚ))
    (score_counts : List (String × ℕ)) (updated : List (String × ℚ)) :
    List (String × JsonVal) →
    List (String × ℚ) × List (String × ℕ) × List (String × ℚ)
  | [] => (score_totals, score_counts, updated)
  | (skill, value) :: rest =>
      if isNumeric value then
        let t := dgetD score_totals skill 0 + floatValue value
        let c := dgetD score_counts skill 0 + 1
        record_scores_aux (dset score_totals skill t) (dset score_counts skill c)
          (dset updated skill (t / (c : ℚ))) rest
      else
        record_scores_aux score_totals score_counts updated rest

/-- InterviewSession.record_scores, acting on the totals and counts dicts
and returning the per-skill averages updated by this call. -/
def record_scores (score_totals : List (String × ℚ))
    (score_counts : List (String × ℕ)) (scores : List (String × JsonVal)) :
    List (String × ℚ) × List (String × ℕ) × List (String × ℚ) :=
  record_scores_aux score_totals score_counts [] scores

/-- InterviewSession.running_scores as a function of the two dicts: one
entry per tracked skill whose count is truthy (non-zero); the keys of the
totals dict are unique, so the value stored with the key is the indexed
value. -/
def running_scores_list :
    List (String × ℚ) → List (String × ℕ) → List (String × ℚ)
  | [], _ => []
  | (skill, total) :: rest, counts =>
      match dget? counts skill with
      | some (c + 1) => (skill, total / ((c + 1 : ℕ) : ℚ)) :: running_scores_list rest counts
      | _ => running_scores_list rest counts

/-- InterviewSession.running_scores. -/
def running_scores (session : InterviewSession) : List (String × ℚ) :=
  running_scores_list session.score_totals session.score_counts

/-- Rendering of a JSON scalar, used when the assistant payload is
serialized back into the message history. -/
def dumpJson : JsonVal → String
  | .num q => toString q
  | .str s => "\"" ++ s ++ "\""
  | .null => "null"

/-- Rendering of the rubric_scores object. -/
def dumpScores (scores : List (String × JsonVal)) : String :=
  "\x7b" ++
    String.intercalate ", "
      (scores.map (fun e => "\"" ++ e.1 ++ "\": " ++ dumpJson e.2)) ++
  "\x7d"

/-- Rendering of an optional string field. -/
def dumpOptStr : Option String → String
  | none => "null"
  | some s => "\"" ++ s ++ "\""

/-- Serialization of the assistant payload appended to the message history
(`json.dumps(content)`).  The exact rendering of the text is immaterial to
the session-state properties proved below; what matters is that exactly
one assistant entry is appended per recorded turn. -/
def dumpContent (c : GatewayContent) : String :=
  "\x7b\"interviewer_message\": " ++ dumpOptStr c.interviewer_message ++
  ", \"evaluation\": " ++
    (match c.evaluation with
     | none => "null"
     | some p =>
         "\x7b\"summary\": " ++ dumpOptStr p.summary ++
         ", \"rubric_scores\": " ++ dumpScores (p.rubric_scores.getD []) ++
         ", \"recommendation\": " ++ dumpOptStr p.recommendation ++ "\x7d") ++
  ", \"next_best_action\": " ++ dumpOptStr c.next_best_action ++ "\x7d"

/-- The setdefault seeding loop at the end of _record_ai_turn, applied to
one of the two score dicts. -/
def seedSkills {α : Type} (ks : List String) (d : List (String × α)) (v : α) :
    List (String × α) :=
  ks.foldl (fun acc sk => dsetdefault acc sk v) d

/-- The validated float dict rendered as numeric JSON values: exactly the
values record_scores receives after EvaluationSnapshot validation, every
one of which passes its isinstance((int, float)) check. -/
def numInj (l : List (String × ℚ)) : List (String × JsonVal) :=
  l.map (fun e => (e.1, JsonVal.num e.2))

/-- The pydantic validation outcome for the rubric_scores of a Gateway
content: trivially successful (and empty) when the evaluation payload is
falsy, because no EvaluationSnapshot is constructed then; otherwise the
validation of the rubric_scores mapping of the payload. -/
def validRubricOf (c : GatewayContent) : Option (List (String × ℚ)) :=
  match c.evaluation with
  | none => some []
  | some payload => rubricValidate (payload.rubric_scores.getD [])

/-- InterviewService._record_ai_turn: build the interviewer message; when
the evaluation payload is truthy, construct the EvaluationSnapshot, whose
pydantic model validates rubric_scores against dict[str, float] and raises
a ValidationError (none here) on any non-coercible value, aborting the
turn before anything is recorded; on success fold the validated float
scores into the running totals, append the turn to the transcript and the
serialized payload to the message history, then seed every rubric skill
into the totals/counts dicts at zero.  (The final session.running_scores()
call of the source is a pure read and is dropped.) -/
def record_ai_turn (session : InterviewSession) (content : GatewayContent)
    (candidate_message : Option ChatMessage) (now : ℕ) :
    Option (InterviewSession × ChatTurn) :=
  let interviewer_message : ChatMessage :=
    { role := "interviewer"
      content := content.interviewer_message.getD ""
      created_at := now }
  let finish := fun (evaluation : Option EvaluationSnapshot)
      (scored : List (String × ℚ) × List (String × ℕ) × List (String × ℚ)) =>
    let turn : ChatTurn :=
      { candidate_message := candidate_message
        interviewer_message := interviewer_message
        evaluation := evaluation
        next_best_action := content.next_best_action }
    let session1 : InterviewSession :=
      { session with
          transcript := session.transcript ++ [turn]
          messages := session.messages ++
            [{ role := "assistant", content := dumpContent content }]
          updated_at := now
          score_totals := seedSkills SKILL_RUBRIC_KEYS scored.1 0
          score_counts := seedSkills SKILL_RUBRIC_KEYS scored.2.1 0 }
    (session1, turn)
  match content.evaluation with
  | none =>
      some (finish none (session.score_totals, session.score_counts, []))
  | some payload =>
      match rubricValidate (payload.rubric_scores.getD []) with
      | none => none
      | some validated =>
          let evaluation : EvaluationSnapshot :=
            { summary := payload.summary.getD ""
              strengths := payload.strengths.getD []
              gaps := payload.gaps.getD []
              rubric_scores := validated
              recommendation := payload.recommendation.getD "" }
          some (finish (some evaluation)
            (record_scores session.score_totals session.score_counts
              (numInj evaluation.rubric_scores)))

/-- The fresh InterviewSession constructed by create_session before the
first turn is recorded: empty transcript, scores and artifacts, and a
message history seeded with the system and bootstrap prompts. -/
def new_session (payload : SessionCreateRequest)
    (system_prompt bootstrap_prompt session_id : String) (now : ℕ) :
    InterviewSession :=
  { session_id := session_id
    candidate := payload.candidate
    scenario := payload.scenario
    focus_areas := payload.candidate.focus_areas
    workbook_platform := payload.workbook_platform
    messages := [{ role := "system", content := system_prompt },
                 { role := "user", content := bootstrap_prompt }]
    transcript := []
    score_totals := []
    score_counts := []
    artifacts := []
    created_at := now
    updated_at := now }

/-- InterviewService.create_session.  The system and bootstrap prompts are
produced by the external Prompt Composer (build_interview_system_prompt and
build_session_bootstrap_prompt) and arrive here as opaque strings; the
fresh uuid4 session id and the Gateway outcome are likewise inputs.  The
session is registered in the store only after the first turn is recorded,
so a Gateway failure, or the ValidationError raised while recording the
first turn, leaves the store unchanged. -/
def create_session (svc : InterviewService) (payload : SessionCreateRequest)
    (system_prompt bootstrap_prompt session_id : String)
    (gw : GatewayResult GatewayContent) (now : ℕ) :
    InterviewService × OpResult SessionCreateResponse :=
  let session := new_session payload system_prompt bootstrap_prompt session_id now
  match gw with
  | .failed => (svc, .err .gatewayError)
  | .ok content =>
      match record_ai_turn session content none now with
      | none => (svc, .err .evaluationValidationError)
      | some r =>
          ({ svc with sessions := dset svc.sessions session_id r.1 },
           .ok { session_id := session_id, first_turn := r.2 })

/-- InterviewService.chat.  After the session lookup the candidate message
is appended to the mutable message history, and only then is the Gateway
invoked; on Gateway failure, and likewise on the pydantic ValidationError
raised while recording the turn, the exception propagates with that append
already performed, mirroring the in-place mutation of the stored session
object. -/
def chat (svc : InterviewService) (session_id message : String)
    (gw : GatewayResult GatewayContent) (now : ℕ) :
    InterviewService × OpResult ChatResponse :=
  match dget? svc.sessions session_id with
  | none => (svc, .err (.sessionNotFound session_id))
  | some session =>
      let candidate_msg : ChatMessage :=
        { role := "candidate", content := message, created_at := now }
      let session1 : InterviewSession :=
        { session with
            messages := session.messages ++ [{ role := "user", content := message }] }
      let svc1 : InterviewService :=
        { svc with sessions := dset svc.sessions session_id session1 }
      match gw with
      | .failed => (svc1, .err .gatewayError)
      | .ok content =>
          match record_ai_turn session1 content (some candidate_msg) now with
          | none => (svc1, .err .evaluationValidationError)
          | some r =>
              let svc2 : InterviewService :=
                { svc1 with sessions := dset svc1.sessions session_id r.1 }
              (svc2, .ok { turn := r.2
                           running_scores := running_scores r.1
                           total_turns := r.1.transcript.length })

/-- InterviewService.summarize.  The wrap-up request is built from a copy
of the message history (`session.messages + [...]`), so the session itself
is read but never written; the three top-level response fields are
extracted with `content.get(...)` defaults. -/
def summarize (svc : InterviewService) (session_id : String)
    (gw : GatewayResult SummaryContent) :
    InterviewService × OpResult SummaryResponse :=
  match dget? svc.sessions session_id with
  | none => (svc, .err (.sessionNotFound session_id))
  | some session =>
      match gw with
      | .failed => (svc, .err .gatewayError)
      | .ok content =>
          (svc, .ok { session_id := session_id
                      transcript := session.transcript
                      final_summary := content.overall_summary.getD ""
                      recommended_next_steps := content.next_steps.getD []
                      overall_scores := content.scorecard.getD [] })

/-- The final path component of a filename, as computed by
`pathlib.Path(filename).name` (path separators split, empty components
dropped). -/
def pathName (filename : String) : String :=
  (((filename.splitOn "/").filter (fun s => s ≠ "")).getLastD "")

/-- Index of the last dot of a character list, if any. -/
def lastDotPos (cs : List Char) : Option ℕ :=
  ((List.range cs.length).filter (fun i => cs.getD i ' ' = '.')).getLast?

/-- The extension of a filename, as computed by
`pathlib.Path(filename).suffix`: the part of the final component from its
last dot on, provided that dot is neither the first nor the last
character. -/
def pySuffix (filename : String) : String :=
  let name := pathName filename
  let cs := name.toList
  match lastDotPos cs with
  | some i => if 0 < i ∧ i < cs.length - 1 then String.mk (cs.drop i) else ""
  | none => ""

/-- Insertion step of the most-recently-uploaded-first ordering used by
list_artifacts: the inserted artifact precedes the first element whose
timestamp is not larger, so artifacts with equal timestamps keep their
original relative order (Python sorted is stable). -/
def insertByUploadedDesc (a : SubmissionArtifact) :
    List SubmissionArtifact → List SubmissionArtifact
  | [] => [a]
  | b :: rest =>
      if b.uploaded_at ≤ a.uploaded_at then a :: b :: rest
      else b :: insertByUploadedDesc a rest

/-- `sorted(..., key=uploaded_at, reverse=True)` over the artifact
values. -/
def sortByUploadedDesc : List SubmissionArtifact → List SubmissionArtifact
  | [] => []
  | a :: rest => insertByUploadedDesc a (sortByUploadedDesc rest)

/-- InterviewService.list_artifacts. -/
def list_artifacts (svc : InterviewService) (session_id : String) :
    InterviewService × OpResult (List SubmissionArtifact) :=
  match dget? svc.sessions session_id with
  | none => (svc, .err (.sessionNotFound session_id))
  | some session =>
      (svc, .ok (sortByUploadedDesc (session.artifacts.map Prod.snd)))

/-- InterviewService.store_file_artifact.  Validation: the lower-cased
extension must be in the allowed set and the byte length must not exceed
the configured maximum; the byte payload itself is persisted by the
external blob storage and only its length is recorded. -/
def store_file_artifact (svc : InterviewService) (session_id : String)
    (filename : String) (content_type : Option String) (data : List ℕ)
    (description : Option String) (artifact_id : String) (now : ℕ) :
    InterviewService × OpResult SubmissionArtifact :=
  match dget? svc.sessions session_id with
  | none => (svc, .err (.sessionNotFound session_id))
  | some session =>
      let extension := (pySuffix filename).toLower
      if extension ∉ ALLOWED_FILE_EXTENSIONS then
        (svc, .err (.validationError
          "Unsupported file type. Upload Excel workbooks, CSV/TSV extracts, or OpenDocument spreadsheets."))
      else if data.length > svc.max_upload_bytes then
        (svc, .err (.validationError "File exceeds the maximum allowed size of 10 MB."))
      else
        let sanitized_name := pathName filename
        let storage_path :=
          svc.storage_dir ++ "/" ++ session_id ++ "/" ++ artifact_id ++ extension
        let artifact : SubmissionArtifact :=
          { id := artifact_id
            source := .file
            filename := some sanitized_name
            content_type := content_type
            size_bytes := some data.length
            uploaded_at := now
            description := (description.getD "").trim
            url := none
            storage_path := some storage_path }
        let session1 : InterviewSession :=
          { session with
              artifacts := dset session.artifacts artifact_id artifact
              updated_at := now }
        ({ svc with sessions := dset svc.sessions session_id session1 }, .ok artifact)

/-- InterviewService.store_link_artifact.  The URL is trimmed and must be
non-empty with an http or https scheme (checked case-insensitively on the
lower-cased URL). -/
def store_link_artifact (svc : InterviewService) (session_id url : String)
    (description : Option String) (artifact_id : String) (now : ℕ) :
    InterviewService × OpResult SubmissionArtifact :=
  match dget? svc.sessions session_id with
  | none => (svc, .err (.sessionNotFound session_id))
  | some session =>
      let cleaned_url := url.trim
      if cleaned_url.isEmpty ||
          !(cleaned_url.toLower.startsWith "http://" ||
            cleaned_url.toLower.startsWith "https://") then
        (svc, .err (.validationError
          "Provide a valid shareable link starting with http:// or https://"))
      else
        let artifact : SubmissionArtifact :=
          { id := artifact_id
            source := .link
            filename := none
            content_type := none
            size_bytes := none
            uploaded_at := now
            description := (description.getD "").trim
            url := some cleaned_url
            storage_path := none }
        let session1 : InterviewSession :=
          { session with
              artifacts := dset session.artifacts artifact_id artifact
              updated_at := now }
        ({ svc with sessions := dset svc.sessions session_id session1 }, .ok artifact)

/-- InterviewService.get_artifact. -/
def get_artifact (svc : InterviewService) (session_id artifact_id : String) :
    InterviewService × OpResult SubmissionArtifact :=
  match dget? svc.sessions session_id with
  | none => (svc, .err (.sessionNotFound session_id))
  | some session =>
      match dget? session.artifacts artifact_id with
      | none => (svc, .err (.artifactNotFound artifact_id))
      | some a => (svc, .ok a)

/-! Dictionary lemmas. -/

theorem dget?_dset_self {α : Type} (d : List (String × α)) (k : String) (v : α) :
    dget? (dset d k v) k = some v := by
  induction d with
  | nil => simp [dset, dget?]
  | cons e rest ih =>
      obtain ⟨k0, v0⟩ := e
      by_cases h : k0 = k
      · simp [dset, h, dget?]
      · simp [dset, h, dget?, ih]

theorem dget?_dset_ne {α : Type} (d : List (String × α)) (k s : String) (v : α)
    (h : s ≠ k) : dget? (dset d k v) s = dget? d s := by
  have hks : ¬ k = s := fun hh => h hh.symm
  induction d with
  | nil => simp [dset, dget?, hks]
  | cons e rest ih =>
      obtain ⟨k0, v0⟩ := e
      by_cases h0 : k0 = k
      · subst h0
        simp [dset, dget?, hks]
      · by_cases hs : k0 = s <;> simp [dset, h0, dget?, hs, ih, h]

theorem dgetD_dset_self {α : Type} (d : List (String × α)) (k : String)
    (v dflt : α) : dgetD (dset d k v) k dflt = v := by
  simp [dgetD, dget?_dset_self]

theorem dgetD_dset_ne {α : Type} (d : List (String × α)) (k s : String)
    (v dflt : α) (h : s ≠ k) : dgetD (dset d k v) s dflt = dgetD d s dflt := by
  simp [dgetD, dget?_dset_ne _ _ _ _ h]

theorem dget?_append {α : Type} (d1 d2 : List (String × α)) (s : String) :
    dget? (d1 ++ d2) s =
      match dget? d1 s with
      | some v => some v
      | none => dget? d2 s := by
  induction d1 with
  | nil => simp [dget?]
  | cons e rest ih =>
      obtain ⟨k0, v0⟩ := e
      by_cases h : k0 = s <;> simp [dget?, h, ih]

theorem dget?_dsetdefault {α : Type} (d : List (String × α)) (k s : String)
    (v : α) :
    dget? (dsetdefault d k v) s =
      if s = k then some (dgetD d k v) else dget? d s := by
  unfold dsetdefault
  cases hk : dget? d k with
  | some w =>
      by_cases h : s = k
      · subst h; simp [hk, dgetD]
      · simp [h]
  | none =>
      rw [dget?_append]
      by_cases h : s = k
      · subst h; simp [hk, dget?, dgetD]
      · have hks : ¬ k = s := fun hh => h hh.symm
        cases hs : dget? d s <;> simp [hs, dget?, h, hks]

theorem dgetD_dsetdefault_same {α : Type} (d : List (String × α)) (k s : String)
    (v : α) : dgetD (dsetdefault d k v) s v = dgetD d s v := by
  unfold dgetD
  rw [dget?_dsetdefault]
  by_cases h : s = k
  · rw [if_pos h, h]
    cases hk : dget? d k <;> simp [hk, dgetD]
  · rw [if_neg h]

theorem keys_dset {α : Type} (d : List (String × α)) (k : String) (v : α) :
    (dset d k v).map Prod.fst =
      if (dget? d k).isSome then d.map Prod.fst else d.map Prod.fst ++ [k] := by
  induction d with
  | nil => simp [dset, dget?]
  | cons e rest ih =>
      obtain ⟨k0, v0⟩ := e
      by_cases h0 : k0 = k
      · subst h0
        simp [dset, dget?]
      · simp only [dset, if_neg h0, dget?, List.map_cons, ih]
        by_cases hk : (dget? rest k).isSome <;> simp [hk, h0]

theorem dget?_eq_none_iff {α : Type} (d : List (String × α)) (s : String) :
    dget? d s = none ↔ s ∉ d.map Prod.fst := by
  induction d with
  | nil => simp [dget?]
  | cons e rest ih =>
      obtain ⟨k0, v0⟩ := e
      by_cases h : k0 = s
      · subst h; simp [dget?]
      · have h2 : ¬ s = k0 := fun hh => h hh.symm
        simp [dget?, h, ih, h2]

theorem nodupKeys_dset {α : Type} (d : List (String × α)) (k : String) (v : α)
    (h : NodupKeys d) : NodupKeys (dset d k v) := by
  unfold NodupKeys at h ⊢
  rw [keys_dset]
  by_cases hk : (dget? d k).isSome
  · rw [if_pos hk]; exact h
  · rw [if_neg hk]
    have hn : k ∉ d.map Prod.fst := by
      rw [← dget?_eq_none_iff]
      exact Option.not_isSome_iff_eq_none.mp hk
    simp [List.nodup_append, h, hn]

theorem nodupKeys_dsetdefault {α : Type} (d : List (String × α)) (k : String)
    (v : α) (h : NodupKeys d) : NodupKeys (dsetdefault d k v) := by
  unfold dsetdefault
  cases hk : dget? d k with
  | some w => exact h
  | none =>
      unfold NodupKeys at h ⊢
      have hnk : k ∉ d.map Prod.fst := (dget?_eq_none_iff d k).mp hk
      simp [List.nodup_append, h, hnk]

theorem seedSkills_dgetD {α : Type} (ks : List String) (d : List (String × α))
    (s : String) (v : α) : dgetD (seedSkills ks d v) s v = dgetD d s v := by
  induction ks generalizing d with
  | nil => simp [seedSkills]
  | cons k rest ih =>
      unfold seedSkills
      rw [List.foldl_cons]
      have := ih (dsetdefault d k v)
      unfold seedSkills at this
      rw [this, dgetD_dsetdefault_same]

theorem seedSkills_nodup {α : Type} (ks : List String) (d : List (String × α))
    (v : α) (h : NodupKeys d) : NodupKeys (seedSkills ks d v) := by
  induction ks generalizing d with
  | nil => simpa [seedSkills] using h
  | cons k rest ih =>
      unfold seedSkills
      rw [List.foldl_cons]
      have := ih (dsetdefault d k v) (nodupKeys_dsetdefault d k v h)
      unfold seedSkills at this
      exact this

theorem seedSkills_isSome_mono {α : Type} (ks : List String)
    (d : List (String × α)) (s : String) (v : α)
    (h : (dget? d s).isSome) : (dget? (seedSkills ks d v) s).isSome := by
  induction ks generalizing d with
  | nil => simpa [seedSkills] using h
  | cons k rest ih =>
      unfold seedSkills
      rw [List.foldl_cons]
      have h1 : (dget? (dsetdefault d k v) s).isSome := by
        rw [dget?_dsetdefault]
        by_cases hs : s = k <;> simp [hs, h]
      have := ih (dsetdefault d k v) h1
      unfold seedSkills at this
      exact this

theorem seedSkills_isSome_of_mem {α : Type} (ks : List String)
    (d : List (String × α)) (s : String) (v : α)
    (h : s ∈ ks) : (dget? (seedSkills ks d v) s).isSome := by
  induction ks generalizing d with
  | nil => cases h
  | cons k rest ih =>
      unfold seedSkills
      rw [List.foldl_cons]
      rcases List.mem_cons.mp h with h1 | h1
      · subst h1
        have h2 : (dget? (dsetdefault d s v) s).isSome := by
          rw [dget?_dsetdefault]; simp
        have := seedSkills_isSome_mono rest (dsetdefault d s v) s v h2
        unfold seedSkills at this
        exact this
      · have := ih (dsetdefault d k v) h1
        unfold seedSkills at this
        exact this

theorem seedSkills_isNone_pair {α β : Type} (ks : List String)
    (d1 : List (String × α)) (d2 : List (String × β)) (s : String)
    (v1 : α) (v2 : β)
    (h : (dget? d1 s).isNone ↔ (dget? d2 s).isNone) :
    ((dget? (seedSkills ks d1 v1) s).isNone ↔
      (dget? (seedSkills ks d2 v2) s).isNone) := by
  induction ks generalizing d1 d2 with
  | nil => simpa [seedSkills] using h
  | cons k rest ih =>
      unfold seedSkills
      rw [List.foldl_cons, List.foldl_cons]
      have h1 : (dget? (dsetdefault d1 k v1) s).isNone ↔
          (dget? (dsetdefault d2 k v2) s).isNone := by
        rw [dget?_dsetdefault, dget?_dsetdefault]
        by_cases hs : s = k <;> simp [hs, h]
      have := ih (dsetdefault d1 k v1) (dsetdefault d2 k v2) h1
      unfold seedSkills at this
      exact this

/-! Aggregation lemmas. -/

/-- The numeric score values recorded for skill S by one pass of
record_scores, in order. -/
def numContribs (S : String) : List (String × JsonVal) → List ℚ
  | [] => []
  | (skill, v) :: rest =>
      if skill = S ∧ isNumeric v = true then floatValue v :: numContribs S rest
      else numContribs S rest

/-- The score values a validated rubric dict records for skill S, in
order. -/
def scoresFor (S : String) (l : List (String × ℚ)) : List ℚ :=
  (l.filter (fun e => e.1 == S)).map Prod.snd

/-- The observations one Gateway content actually records for skill S:
none when its evaluation fails the pydantic validation (the whole turn is
aborted then), otherwise the validated values stored under S. -/
def contribsOf (c : GatewayContent) (S : String) : List ℚ :=
  match validRubricOf c with
  | none => []
  | some l => scoresFor S l

theorem numContribs_numInj (S : String) :
    ∀ l : List (String × ℚ), numContribs S (numInj l) = scoresFor S l := by
  intro l
  induction l with
  | nil => rfl
  | cons e rest ih =>
      obtain ⟨sk, q⟩ := e
      simp only [numInj, List.map_cons, scoresFor, List.filter_cons] at ih ⊢
      by_cases h : sk = S
      · simp [numContribs, h, isNumeric, floatValue, ih]
      · simp [numContribs, h, ih]

theorem record_scores_aux_totals (S : String) :
    ∀ (scores : List (String × JsonVal)) (totals : List (String × ℚ))
      (counts : List (String × ℕ)) (upd : List (String × ℚ)),
    dgetD (record_scores_aux totals counts upd scores).1 S 0 =
      dgetD totals S 0 + (numContribs S scores).sum := by
  intro scores
  induction scores with
  | nil => intro totals counts upd; simp [record_scores_aux, numContribs]
  | cons e rest ih =>
      intro totals counts upd
      obtain ⟨skill, v⟩ := e
      by_cases hn : isNumeric v = true
      · by_cases hsk : skill = S
        · subst hsk
          rw [record_scores_aux, if_pos hn, ih, numContribs,
            if_pos ⟨rfl, hn⟩, dgetD_dset_self, List.sum_cons]
          ring
        · have hne : S ≠ skill := fun hh => hsk hh.symm
          rw [record_scores_aux, if_pos hn, ih, numContribs,
            if_neg (by rintro ⟨hh, _⟩; exact hsk hh), dgetD_dset_ne _ _ _ _ _ hne]
      · rw [record_scores_aux, if_neg hn, ih, numContribs,
          if_neg (by rintro ⟨_, hh⟩; exact hn hh)]

theorem record_scores_aux_counts (S : String) :
    ∀ (scores : List (String × JsonVal)) (totals : List (String × ℚ))
      (counts : List (String × ℕ)) (upd : List (String × ℚ)),
    dgetD (record_scores_aux totals counts upd scores).2.1 S 0 =
      dgetD counts S 0 + (numContribs S scores).length := by
  intro scores
  induction scores with
  | nil => intro totals counts upd; simp [record_scores_aux, numContribs]
  | cons e rest ih =>
      intro totals counts upd
      obtain ⟨skill, v⟩ := e
      by_cases hn : isNumeric v = true
      · by_cases hsk : skill = S
        · subst hsk
          rw [record_scores_aux, if_pos hn, ih, numContribs,
            if_pos ⟨rfl, hn⟩, dgetD_dset_self]
          simp [Nat.add_assoc, Nat.add_comm 1]
        · have hne : S ≠ skill := fun hh => hsk hh.symm
          rw [record_scores_aux, if_pos hn, ih, numContribs,
            if_neg (by rintro ⟨hh, _⟩; exact hsk hh), dgetD_dset_ne _ _ _ _ _ hne]
      · rw [record_scores_aux, if_neg hn, ih, numContribs,
          if_neg (by rintro ⟨_, hh⟩; exact hn hh)]

theorem record_scores_aux_nodup_totals :
    ∀ (scores : List (String × JsonVal)) (totals : List (String × ℚ))
      (counts : List (String × ℕ)) (upd : List (String × ℚ)),
    NodupKeys totals → NodupKeys (record_scores_aux totals counts upd scores).1 := by
  intro scores
  induction scores with
  | nil => intro totals counts upd h; simpa [record_scores_aux] using h
  | cons e rest ih =>
      intro totals counts upd h
      obtain ⟨skill, v⟩ := e
      by_cases hn : isNumeric v = true
      · rw [record_scores_aux, if_pos hn]
        exact ih _ _ _ (nodupKeys_dset _ _ _ h)
      · rw [record_scores_aux, if_neg hn]
        exact ih _ _ _ h

theorem record_scores_aux_nodup_counts :
    ∀ (scores : List (String × JsonVal)) (totals : List (String × ℚ))
      (counts : List (String × ℕ)) (upd : List (String × ℚ)),
    NodupKeys counts → NodupKeys (record_scores_aux totals counts upd scores).2.1 := by
  intro scores
  induction scores with
  | nil => intro totals counts upd h; simpa [record_scores_aux] using h
  | cons e rest ih =>
      intro totals counts upd h
      obtain ⟨skill, v⟩ := e
      by_cases hn : isNumeric v = true
      · rw [record_scores_aux, if_pos hn]
        exact ih _ _ _ (nodupKeys_dset _ _ _ h)
      · rw [record_scores_aux, if_neg hn]
        exact ih _ _ _ h

theorem record_scores_aux_isNone (S : String) :
    ∀ (scores : List (String × JsonVal)) (totals : List (String × ℚ))
      (counts : List (String × ℕ)) (upd : List (String × ℚ)),
    ((dget? totals S).isNone ↔ (dget? counts S).isNone) →
    ((dget? (record_scores_aux totals counts upd scores).1 S).isNone ↔
      (dget? (record_scores_aux totals counts upd scores).2.1 S).isNone) := by
  intro scores
  induction scores with
  | nil => intro totals counts upd h; simpa [record_scores_aux] using h
  | cons e rest ih =>
      intro totals counts upd h
      obtain ⟨skill, v⟩ := e
      by_cases hn : isNumeric v = true
      · rw [record_scores_aux, if_pos hn]
        refine ih _ _ _ ?_
        by_cases hsk : S = skill
        · subst hsk
          simp [dget?_dset_self]
        · rw [dget?_dset_ne _ _ _ _ hsk, dget?_dset_ne _ _ _ _ hsk]
          exact h
      · rw [record_scores_aux, if_neg hn]
        exact ih _ _ _ h

/-! Projections of one recorded turn. -/

theorem record_ai_turn_none (sess : InterviewSession) (c : GatewayContent)
    (cm : Option ChatMessage) (now : ℕ)
    (hv : validRubricOf c = none) :
    record_ai_turn sess c cm now = none := by
  cases hc : c.evaluation with
  | none => simp [validRubricOf, hc] at hv
  | some payload =>
      simp only [validRubricOf, hc] at hv
      simp [record_ai_turn, hc, hv]

theorem record_ai_turn_some (sess : InterviewSession) (c : GatewayContent)
    (cm : Option ChatMessage) (now : ℕ) (l : List (String × ℚ))
    (hv : validRubricOf c = some l) :
    ∃ r, record_ai_turn sess c cm now = some r := by
  have hs : (record_ai_turn sess c cm now).isSome = true := by
    cases hc : c.evaluation with
    | none => simp [record_ai_turn, hc]
    | some payload =>
        simp only [validRubricOf, hc] at hv
        simp [record_ai_turn, hc, hv]
  exact Option.isSome_iff_exists.mp hs

theorem record_ai_turn_totals (sess : InterviewSession) (c : GatewayContent)
    (cm : Option ChatMessage) (now : ℕ) (l : List (String × ℚ))
    (r : InterviewSession × ChatTurn)
    (hv : validRubricOf c = some l)
    (hr : record_ai_turn sess c cm now = some r) :
    r.1.score_totals =
      seedSkills SKILL_RUBRIC_KEYS
        (record_scores sess.score_totals sess.score_counts (numInj l)).1 0 := by
  cases hc : c.evaluation with
  | none =>
      simp only [validRubricOf, hc, Option.some.injEq] at hv
      subst hv
      simp only [record_ai_turn, hc, Option.some.injEq] at hr
      subst hr
      simp [record_scores, record_scores_aux, numInj]
  | some payload =>
      simp only [validRubricOf, hc] at hv
      simp only [record_ai_turn, hc, hv, Option.some.injEq] at hr
      subst hr
      rfl

theorem record_ai_turn_counts (sess : InterviewSession) (c : GatewayContent)
    (cm : Option ChatMessage) (now : ℕ) (l : List (String × ℚ))
    (r : InterviewSession × ChatTurn)
    (hv : validRubricOf c = some l)
    (hr : record_ai_turn sess c cm now = some r) :
    r.1.score_counts =
      seedSkills SKILL_RUBRIC_KEYS
        (record_scores sess.score_totals sess.score_counts (numInj l)).2.1 0 := by
  cases hc : c.evaluation with
  | none =>
      simp only [validRubricOf, hc, Option.some.injEq] at hv
      subst hv
      simp only [record_ai_turn, hc, Option.some.injEq] at hr
      subst hr
      simp [record_scores, record_scores_aux, numInj]
  | some payload =>
      simp only [validRubricOf, hc] at hv
      simp only [record_ai_turn, hc, hv, Option.some.injEq] at hr
      subst hr
      rfl

theorem record_ai_turn_totals_dgetD (sess : InterviewSession)
    (c : GatewayContent) (cm : Option ChatMessage) (now : ℕ)
    (l : List (String × ℚ)) (r : InterviewSession × ChatTurn) (S : String)
    (hv : validRubricOf c = some l)
    (hr : record_ai_turn sess c cm now = some r) :
    dgetD r.1.score_totals S 0 =
      dgetD sess.score_totals S 0 + (contribsOf c S).sum := by
  rw [record_ai_turn_totals sess c cm now l r hv hr, seedSkills_dgetD,
    record_scores, record_scores_aux_totals, numContribs_numInj]
  simp [contribsOf, hv]

theorem record_ai_turn_counts_dgetD (sess : InterviewSession)
    (c : GatewayContent) (cm : Option ChatMessage) (now : ℕ)
    (l : List (String × ℚ)) (r : InterviewSession × ChatTurn) (S : String)
    (hv : validRubricOf c = some l)
    (hr : record_ai_turn sess c cm now = some r) :
    dgetD r.1.score_counts S 0 =
      dgetD sess.score_counts S 0 + (contribsOf c S).length := by
  rw [record_ai_turn_counts sess c cm now l r hv hr, seedSkills_dgetD,
    record_scores, record_scores_aux_counts, numContribs_numInj]
  simp [contribsOf, hv]

theorem record_ai_turn_nodup_totals (sess : InterviewSession)
    (c : GatewayContent) (cm : Option ChatMessage) (now : ℕ)
    (l : List (String × ℚ)) (r : InterviewSession × ChatTurn)
    (hv : validRubricOf c = some l)
    (hr : record_ai_turn sess c cm now = some r)
    (h : NodupKeys sess.score_totals) :
    NodupKeys r.1.score_totals := by
  rw [record_ai_turn_totals sess c cm now l r hv hr]
  exact seedSkills_nodup _ _ _
    (record_scores_aux_nodup_totals _ _ _ _ h)

theorem record_ai_turn_nodup_counts (sess : InterviewSession)
    (c : GatewayContent) (cm : Option ChatMessage) (now : ℕ)
    (l : List (String × ℚ)) (r : InterviewSession × ChatTurn)
    (hv : validRubricOf c = some l)
    (hr : record_ai_turn sess c cm now = some r)
    (h : NodupKeys sess.score_counts) :
    NodupKeys r.1.score_counts := by
  rw [record_ai_turn_counts sess c cm now l r hv hr]
  exact seedSkills_nodup _ _ _
    (record_scores_aux_nodup_counts _ _ _ _ h)

theorem record_ai_turn_isNone (sess : InterviewSession)
    (c : GatewayContent) (cm : Option ChatMessage) (now : ℕ)
    (l : List (String × ℚ)) (r : InterviewSession × ChatTurn) (S : String)
    (hv : validRubricOf c = some l)
    (hr : record_ai_turn sess c cm now = some r)
    (h : (dget? sess.score_totals S).isNone ↔ (dget? sess.score_counts S).isNone) :
    ((dget? r.1.score_totals S).isNone ↔ (dget? r.1.score_counts S).isNone) := by
  rw [record_ai_turn_totals sess c cm now l r hv hr,
    record_ai_turn_counts sess c cm now l r hv hr]
  exact seedSkills_isNone_pair _ _ _ _ _ _
    (record_scores_aux_isNone _ _ _ _ _ h)

theorem record_ai_turn_rubric_isSome (sess : InterviewSession)
    (c : GatewayContent) (cm : Option ChatMessage) (now : ℕ)
    (l : List (String × ℚ)) (r : InterviewSession × ChatTurn) (sk : String)
    (hv : validRubricOf c = some l)
    (hr : record_ai_turn sess c cm now = some r)
    (h : sk ∈ SKILL_RUBRIC_KEYS) :
    (dget? r.1.score_totals sk).isSome ∧
      (dget? r.1.score_counts sk).isSome := by
  rw [record_ai_turn_totals sess c cm now l r hv hr,
    record_ai_turn_counts sess c cm now l r hv hr]
  exact ⟨seedSkills_isSome_of_mem _ _ _ _ h, seedSkills_isSome_of_mem _ _ _ _ h⟩

/-! Lookup characterization of running_scores. -/

theorem running_scores_list_not_mem (counts : List (String × ℕ)) (S : String) :
    ∀ totals : List (String × ℚ), S ∉ totals.map Prod.fst →
    dget? (running_scores_list totals counts) S = none := by
  intro totals
  induction totals with
  | nil => intro h; simp [running_scores_list, dget?]
  | cons e rest ih =>
      intro h
      obtain ⟨sk, total⟩ := e
      rw [List.map_cons, List.mem_cons] at h
      push_neg at h
      have hne : ¬ sk = S := fun hh => h.1 hh.symm
      rw [running_scores_list]
      cases hc : dget? counts sk with
      | none => exact ih h.2
      | some n =>
          cases n with
          | zero => exact ih h.2
          | succ m =>
              rw [dget?, if_neg hne]
              exact ih h.2

theorem running_scores_list_lookup (counts : List (String × ℕ)) (S : String) :
    ∀ totals : List (String × ℚ), NodupKeys totals →
    dget? (running_scores_list totals counts) S =
      (dget? totals S).bind (fun t =>
        match dget? counts S with
        | some (c + 1) => some (t / ((c + 1 : ℕ) : ℚ))
        | _ => none) := by
  intro totals
  induction totals with
  | nil => intro h; simp [running_scores_list, dget?]
  | cons e rest ih =>
      intro h
      obtain ⟨sk, total⟩ := e
      unfold NodupKeys at h
      rw [List.map_cons, List.nodup_cons] at h
      by_cases hS : sk = S
      · subst hS
        rw [running_scores_list]
        cases hc : dget? counts sk with
        | none =>
            rw [running_scores_list_not_mem _ _ _ h.1, dget?, if_pos rfl]
            rfl
        | some n =>
            cases n with
            | zero =>
                rw [running_scores_list_not_mem _ _ _ h.1, dget?, if_pos rfl]
                rfl
            | succ m =>
                rw [dget?, if_pos rfl, dget?, if_pos rfl]
                rfl
      · rw [running_scores_list]
        have htail : dget? ((sk, total) :: rest) S = dget? rest S := by
          rw [dget?, if_neg hS]
        cases hc : dget? counts sk with
        | none => rw [ih h.2, htail]
        | some n =>
            cases n with
            | zero => rw [ih h.2, htail]
            | succ m =>
                rw [dget?, if_neg hS, ih h.2, htail]

/-! A sequence of chat calls against one session. -/

/-- Run a sequence of chat calls (candidate message, parsed Gateway
content, timestamp) against the given session, threading the service
state. -/
def runChats (svc : InterviewService) (session_id : String) :
    List (String × GatewayContent × ℕ) → InterviewService
  | [] => svc
  | (msg, c, now) :: rest =>
      runChats (chat svc session_id msg (GatewayResult.ok c) now).1 session_id rest

theorem chat_valid_lookup (svc : InterviewService) (session_id msg : String)
    (c : GatewayContent) (now : ℕ) (sess : InterviewSession)
    (l : List (String × ℚ))
    (h : dget? svc.sessions session_id = some sess)
    (hv : validRubricOf c = some l) :
    ∃ r, record_ai_turn
        { sess with messages := sess.messages ++ [{ role := "user", content := msg }] }
        c (some { role := "candidate", content := msg, created_at := now }) now =
        some r ∧
      dget? (chat svc session_id msg (GatewayResult.ok c) now).1.sessions
        session_id = some r.1 ∧
      (chat svc session_id msg (GatewayResult.ok c) now).2 = OpResult.ok
        { turn := r.2
          running_scores := running_scores r.1
          total_turns := r.1.transcript.length } := by
  obtain ⟨r, hr⟩ := record_ai_turn_some
    { sess with messages := sess.messages ++ [{ role := "user", content := msg }] }
    c (some { role := "candidate", content := msg, created_at := now }) now l hv
  refine ⟨r, hr, ?_, ?_⟩
  · simp only [chat, h, hr]
    simp [dget?_dset_self]
  · simp only [chat, h, hr]

theorem chat_invalid_lookup (svc : InterviewService) (session_id msg : String)
    (c : GatewayContent) (now : ℕ) (sess : InterviewSession)
    (h : dget? svc.sessions session_id = some sess)
    (hv : validRubricOf c = none) :
    dget? (chat svc session_id msg (GatewayResult.ok c) now).1.sessions
        session_id =
      some { sess with
        messages := sess.messages ++ [{ role := "user", content := msg }] } ∧
    (chat svc session_id msg (GatewayResult.ok c) now).2 =
      OpResult.err SvcError.evaluationValidationError := by
  have hr := record_ai_turn_none
    { sess with messages := sess.messages ++ [{ role := "user", content := msg }] }
    c (some { role := "candidate", content := msg, created_at := now }) now hv
  constructor
  · simp only [chat, h, hr]
    simp [dget?_dset_self]
  · simp only [chat, h, hr]

theorem chat_step_state (svc : InterviewService) (session_id msg : String)
    (c : GatewayContent) (now : ℕ) (sess : InterviewSession) (S : String)
    (h : dget? svc.sessions session_id = some sess) :
    ∃ fs, dget? (chat svc session_id msg (GatewayResult.ok c) now).1.sessions
        session_id = some fs ∧
      dgetD fs.score_totals S 0 =
        dgetD sess.score_totals S 0 + (contribsOf c S).sum ∧
      dgetD fs.score_counts S 0 =
        dgetD sess.score_counts S 0 + (contribsOf c S).length ∧
      (NodupKeys sess.score_totals → NodupKeys fs.score_totals) ∧
      (NodupKeys sess.score_counts → NodupKeys fs.score_counts) ∧
      (((dget? sess.score_totals S).isNone ↔ (dget? sess.score_counts S).isNone) →
        ((dget? fs.score_totals S).isNone ↔ (dget? fs.score_counts S).isNone)) := by
  cases hval : validRubricOf c with
  | none =>
      obtain ⟨h1, _⟩ := chat_invalid_lookup svc session_id msg c now sess h hval
      refine ⟨_, h1, ?_, ?_, fun hh => hh, fun hh => hh, fun hh => hh⟩
      · simp [contribsOf, hval]
      · simp [contribsOf, hval]
  | some l =>
      obtain ⟨r, hr, h1, _⟩ :=
        chat_valid_lookup svc session_id msg c now sess l h hval
      exact ⟨r.1, h1,
        record_ai_turn_totals_dgetD
          { sess with messages := sess.messages ++ [{ role := "user", content := msg }] }
          c _ now l r S hval hr,
        record_ai_turn_counts_dgetD
          { sess with messages := sess.messages ++ [{ role := "user", content := msg }] }
          c _ now l r S hval hr,
        fun hh => record_ai_turn_nodup_totals
          { sess with messages := sess.messages ++ [{ role := "user", content := msg }] }
          c _ now l r hval hr hh,
        fun hh => record_ai_turn_nodup_counts
          { sess with messages := sess.messages ++ [{ role := "user", content := msg }] }
          c _ now l r hval hr hh,
        fun hh => record_ai_turn_isNone
          { sess with messages := sess.messages ++ [{ role := "user", content := msg }] }
          c _ now l r S hval hr hh⟩

theorem runChats_state (session_id S : String) :
    ∀ (calls : List (String × GatewayContent × ℕ)) (svc : InterviewService)
      (sess : InterviewSession),
    dget? svc.sessions session_id = some sess →
    NodupKeys sess.score_totals → NodupKeys sess.score_counts →
    ((dget? sess.score_totals S).isNone ↔ (dget? sess.score_counts S).isNone) →
    ∃ fs, dget? (runChats svc session_id calls).sessions session_id = some fs ∧
      NodupKeys fs.score_totals ∧ NodupKeys fs.score_counts ∧
      ((dget? fs.score_totals S).isNone ↔ (dget? fs.score_counts S).isNone) ∧
      dgetD fs.score_totals S 0 =
        dgetD sess.score_totals S 0 +
          (calls.map (fun e => (contribsOf e.2.1 S).sum)).sum ∧
      dgetD fs.score_counts S 0 =
        dgetD sess.score_counts S 0 +
          (calls.map (fun e => (contribsOf e.2.1 S).length)).sum := by
  intro calls
  induction calls with
  | nil =>
      intro svc sess h h1 h2 h3
      exact ⟨sess, by simpa [runChats] using h, h1, h2, h3, by simp, by simp⟩
  | cons e rest ih =>
      intro svc sess h h1 h2 h3
      obtain ⟨msg, c, now⟩ := e
      obtain ⟨fs1, hl1, hT, hC, hN1, hN2, hI⟩ :=
        chat_step_state svc session_id msg c now sess S h
      obtain ⟨fs, hfs, hn1, hn2, hni, ht, hcnt⟩ :=
        ih (chat svc session_id msg (GatewayResult.ok c) now).1 fs1 hl1
          (hN1 h1) (hN2 h2) (hI h3)
      refine ⟨fs, ?_, hn1, hn2, hni, ?_, ?_⟩
      · simpa [runChats] using hfs
      · simp only [List.map_cons, List.sum_cons]
        rw [ht, hT, ← add_assoc]
      · simp only [List.map_cons, List.sum_cons]
        rw [hcnt, hC, ← Nat.add_assoc]

/-- The average reported for skill S after a sequence of chat calls on an
existing session equals the accumulated total divided by the accumulated
count, provided at least one observation has been recorded. -/
theorem runChats_average (svc : InterviewService) (session_id S : String)
    (sess : InterviewSession) (calls : List (String × GatewayContent × ℕ))
    (h : dget? svc.sessions session_id = some sess)
    (hnt : NodupKeys sess.score_totals) (hnc : NodupKeys sess.score_counts)
    (hiff : (dget? sess.score_totals S).isNone ↔
      (dget? sess.score_counts S).isNone)
    (hk : 0 < dgetD sess.score_counts S 0 +
      (calls.map (fun e => (contribsOf e.2.1 S).length)).sum) :
    ∃ fs, dget? (runChats svc session_id calls).sessions session_id = some fs ∧
      dget? (running_scores fs) S =
        some ((dgetD sess.score_totals S 0 +
            (calls.map (fun e => (contribsOf e.2.1 S).sum)).sum) /
          ((dgetD sess.score_counts S 0 +
            (calls.map (fun e => (contribsOf e.2.1 S).length)).sum : ℕ) : ℚ)) := by
  obtain ⟨fs, hfs, hn1, _hn2, hni, ht, hcnt⟩ :=
    runChats_state session_id S calls svc sess h hnt hnc hiff
  refine ⟨fs, hfs, ?_⟩
  have hcs : dget? fs.score_counts S =
      some (dgetD sess.score_counts S 0 +
        (calls.map (fun e => (contribsOf e.2.1 S).length)).sum) := by
    cases hc : dget? fs.score_counts S with
    | none =>
        exfalso
        rw [dgetD, hc, Option.getD_none] at hcnt
        omega
    | some n =>
        rw [dgetD, hc, Option.getD_some] at hcnt
        rw [hcnt]
  have hts : dget? fs.score_totals S =
      some (dgetD sess.score_totals S 0 +
        (calls.map (fun e => (contribsOf e.2.1 S).sum)).sum) := by
    cases hts0 : dget? fs.score_totals S with
    | none =>
        exfalso
        rw [hts0, hcs] at hni
        simp at hni
    | some t =>
        rw [dgetD, hts0, Option.getD_some] at ht
        rw [ht]
  rw [running_scores, running_scores_list_lookup _ _ _ hn1, hts, hcs,
    Option.some_bind]
  cases hsum : dgetD sess.score_counts S 0 +
      (calls.map (fun e => (contribsOf e.2.1 S).length)).sum with
  | zero => omega
  | succ m => rfl

/-! Concrete fixtures used to instantiate the theorems. -/

/-- Candidate profile of the concrete scenario from the specification. -/
def jordanProfile : CandidateProfile :=
  { name := "Jordan"
    current_role := "Financial Analyst"
    years_experience := 4
    target_role := "Senior Financial Analyst"
    focus_areas := [FocusArea.data_analysis] }

/-- A freshly created session state (empty history, transcript, scores and
artifacts), as produced at registration time before any turn. -/
def sessW : InterviewSession :=
  { session_id := "s"
    candidate := jordanProfile
    scenario := "finance_analyst"
    focus_areas := [FocusArea.data_analysis]
    workbook_platform := WorkbookPlatform.microsoft_excel
    messages := []
    transcript := []
    score_totals := []
    score_counts := []
    artifacts := []
    created_at := 0
    updated_at := 0 }

/-- A service holding the single session sessW under id "s". -/
def svcW : InterviewService :=
  { sessions := [("s", sessW)]
    storage_dir := "uploads"
    max_upload_bytes := DEFAULT_MAX_UPLOAD_BYTES }

/-- The session-creation request of the concrete scenario. -/
def jordanRequest : SessionCreateRequest :=
  { candidate := jordanProfile
    scenario := "finance_analyst"
    workbook_platform := WorkbookPlatform.microsoft_excel }

/-- A service with no sessions. -/
def svc0 : InterviewService :=
  { sessions := []
    storage_dir := "uploads"
    max_upload_bytes := DEFAULT_MAX_UPLOAD_BYTES }

/-- Gateway content whose evaluation scores data_analysis with the given
value. -/
def contentScore (q : ℚ) : GatewayContent :=
  { interviewer_message := some "Good. Here is the next task."
    evaluation := some
      { summary := some "Scored answer."
        strengths := some ["clear reasoning"]
        gaps := some []
        rubric_scores := some [("data_analysis", JsonVal.num q)]
        recommendation := some "probe further" }
    next_best_action := some "continue" }

/-! C1.  The claim states that a Gateway failure during chat leaves the
session state fully unmutated.  In the source the candidate message is
appended to the mutable message history before the Gateway is invoked
(interview_service.py lines 141 and 143), so after a failed call the
message history retains that entry while transcript and score aggregates
are untouched. -/

/-- C1 counterexample: on the concrete service svcW, a chat call whose
Gateway call fails with a GatewayError leaves the session with a mutated
message history (the candidate entry was appended), refuting the claim
that no entry is added to the message history. -/
theorem C1_counterexample :
    ((dget? (chat svcW "s" "hello" GatewayResult.failed 1).1.sessions "s").map
        (fun s => s.messages)) ≠ some sessW.messages ∧
    (chat svcW "s" "hello" GatewayResult.failed 1).2 =
      OpResult.err SvcError.gatewayError := by
  decide

/-- C1 (amended): when the Gateway call or response parsing of a chat call
fails with a GatewayError, no turn is appended to the transcript and the
score totals/counts and artifacts are unchanged, but the candidate message
remains appended to the session message history (the only observable
mutation). -/
theorem C1_chat_gateway_failure (svc : InterviewService)
    (session_id message : String) (now : ℕ) (sess : InterviewSession)
    (h : dget? svc.sessions session_id = some sess) :
    ∃ fs,
      dget? (chat svc session_id message GatewayResult.failed now).1.sessions
          session_id = some fs ∧
      fs.transcript = sess.transcript ∧
      fs.score_totals = sess.score_totals ∧
      fs.score_counts = sess.score_counts ∧
      fs.artifacts = sess.artifacts ∧
      fs.messages = sess.messages ++ [{ role := "user", content := message }] ∧
      (chat svc session_id message GatewayResult.failed now).2 =
        OpResult.err SvcError.gatewayError := by
  refine ⟨{ sess with
      messages := sess.messages ++ [{ role := "user", content := message }] },
    ?_, rfl, rfl, rfl, rfl, rfl, ?_⟩
  · simp only [chat, h]
    simp [dget?_dset_self]
  · simp only [chat, h]

/-- C1 witness: the amended theorem applied at a concrete input. -/
theorem C1_chat_gateway_failure_witness :
    dget? svcW.sessions "s" = some sessW ∧
    (∃ fs,
      dget? (chat svcW "s" "hello" GatewayResult.failed 1).1.sessions "s" =
        some fs ∧
      fs.transcript = sessW.transcript ∧
      fs.score_totals = sessW.score_totals ∧
      fs.score_counts = sessW.score_counts ∧
      fs.artifacts = sessW.artifacts ∧
      fs.messages = sessW.messages ++ [{ role := "user", content := "hello" }] ∧
      (chat svcW "s" "hello" GatewayResult.failed 1).2 =
        OpResult.err SvcError.gatewayError) :=
  ⟨rfl, C1_chat_gateway_failure svcW "s" "hello" 1 sessW rfl⟩

theorem create_session_valid (svc : InterviewService)
    (payload : SessionCreateRequest)
    (system_prompt bootstrap_prompt session_id : String)
    (c0 : GatewayContent) (now0 : ℕ) (l0 : List (String × ℚ))
    (hl0 : validRubricOf c0 = some l0) :
    ∃ r0, record_ai_turn
        (new_session payload system_prompt bootstrap_prompt session_id now0)
        c0 none now0 = some r0 ∧
      (create_session svc payload system_prompt bootstrap_prompt session_id
        (GatewayResult.ok c0) now0).2 =
        OpResult.ok { session_id := session_id, first_turn := r0.2 } ∧
      dget? (create_session svc payload system_prompt bootstrap_prompt
        session_id (GatewayResult.ok c0) now0).1.sessions session_id =
        some r0.1 := by
  obtain ⟨r0, hr0⟩ := record_ai_turn_some
    (new_session payload system_prompt bootstrap_prompt session_id now0)
    c0 none now0 l0 hl0
  refine ⟨r0, hr0, ?_, ?_⟩
  · simp only [create_session, hr0]
  · simp only [create_session, hr0]
    simp [dget?_dset_self]

/-- C2: starting from a session as create_session registers it (its
bootstrap evaluation carrying only numeric or numerically coercible rubric
scores), for every sequence of chat calls whose evaluations likewise carry
numeric rubric scores, the running average reported for skill S after its
k contributing observations (k positive) equals the sum of those
observations divided by k, and any permutation of the chat calls reports
the same average. -/
theorem C2_running_average (svc : InterviewService)
    (payload : SessionCreateRequest)
    (system_prompt bootstrap_prompt session_id : String)
    (c0 : GatewayContent) (now0 : ℕ)
    (calls : List (String × GatewayContent × ℕ)) (S : String)
    (hv0 : (validRubricOf c0).isSome)
    (hvc : ∀ e ∈ calls, (validRubricOf e.2.1).isSome)
    (hk : 0 < (contribsOf c0 S).length +
      (calls.map (fun e => (contribsOf e.2.1 S).length)).sum) :
    (∃ resp, (create_session svc payload system_prompt bootstrap_prompt
        session_id (GatewayResult.ok c0) now0).2 = OpResult.ok resp) ∧
    (∃ fs, dget? (runChats (create_session svc payload system_prompt
          bootstrap_prompt session_id (GatewayResult.ok c0) now0).1 session_id
          calls).sessions session_id = some fs ∧
      dget? (running_scores fs) S =
        some (((contribsOf c0 S).sum +
            (calls.map (fun e => (contribsOf e.2.1 S).sum)).sum) /
          (((contribsOf c0 S).length +
            (calls.map (fun e => (contribsOf e.2.1 S).length)).sum : ℕ) : ℚ))) ∧
    (∀ calls2, calls2.Perm calls →
      ∃ fs2, dget? (runChats (create_session svc payload system_prompt
            bootstrap_prompt session_id (GatewayResult.ok c0) now0).1 session_id
            calls2).sessions session_id = some fs2 ∧
        dget? (running_scores fs2) S =
          some (((contribsOf c0 S).sum +
              (calls.map (fun e => (contribsOf e.2.1 S).sum)).sum) /
            (((contribsOf c0 S).length +
              (calls.map (fun e => (contribsOf e.2.1 S).length)).sum : ℕ) : ℚ))) := by
  obtain ⟨l0, hl0⟩ := Option.isSome_iff_exists.mp hv0
  obtain ⟨r0, hr0, hresp, hlook⟩ := create_session_valid svc payload
    system_prompt bootstrap_prompt session_id c0 now0 l0 hl0
  have hT0 : dgetD r0.1.score_totals S 0 = (contribsOf c0 S).sum := by
    rw [record_ai_turn_totals_dgetD _ c0 _ now0 l0 r0 S hl0 hr0]
    simp [new_session, dgetD, dget?]
  have hC0 : dgetD r0.1.score_counts S 0 = (contribsOf c0 S).length := by
    rw [record_ai_turn_counts_dgetD _ c0 _ now0 l0 r0 S hl0 hr0]
    simp [new_session, dgetD, dget?]
  have hN1 : NodupKeys r0.1.score_totals :=
    record_ai_turn_nodup_totals _ c0 _ now0 l0 r0 hl0 hr0
      (by simp [new_session, NodupKeys])
  have hN2 : NodupKeys r0.1.score_counts :=
    record_ai_turn_nodup_counts _ c0 _ now0 l0 r0 hl0 hr0
      (by simp [new_session, NodupKeys])
  have hI : (dget? r0.1.score_totals S).isNone ↔
      (dget? r0.1.score_counts S).isNone :=
    record_ai_turn_isNone _ c0 _ now0 l0 r0 S hl0 hr0
      (by simp [new_session, dget?])
  refine ⟨⟨_, hresp⟩, ?_, ?_⟩
  · obtain ⟨fs, h1, h2⟩ := runChats_average _ session_id S r0.1 calls hlook
      hN1 hN2 hI (by rw [hC0]; exact hk)
    refine ⟨fs, h1, ?_⟩
    rw [h2, hT0, hC0]
  · intro calls2 hp
    have hsum : (calls2.map (fun e => (contribsOf e.2.1 S).sum)).sum =
        (calls.map (fun e => (contribsOf e.2.1 S).sum)).sum :=
      (hp.map _).sum_eq
    have hlen : (calls2.map (fun e => (contribsOf e.2.1 S).length)).sum =
        (calls.map (fun e => (contribsOf e.2.1 S).length)).sum :=
      (hp.map _).sum_eq
    obtain ⟨fs2, h1, h2⟩ := runChats_average _ session_id S r0.1 calls2 hlook
      hN1 hN2 hI (by rw [hC0, hlen]; exact hk)
    refine ⟨fs2, h1, ?_⟩
    rw [h2, hT0, hC0, hsum, hlen]

/-- Two chat calls scoring data_analysis with 3 and then 5. -/
def callsW : List (String × GatewayContent × ℕ) :=
  [("first answer", contentScore 3, 1), ("second answer", contentScore 5, 2)]

/-- C2 witness: the theorem applied at a concrete input (creation scoring
data_analysis 3, two further chat calls scoring 3 and 5). -/
theorem C2_running_average_witness :
    (validRubricOf (contentScore 3)).isSome ∧
    (∀ e ∈ callsW, (validRubricOf e.2.1).isSome) ∧
    0 < (contribsOf (contentScore 3) "data_analysis").length +
      (callsW.map (fun e => (contribsOf e.2.1 "data_analysis").length)).sum ∧
    ((∃ resp, (create_session svc0 jordanRequest "system prompt"
        "bootstrap prompt" "sid-1" (GatewayResult.ok (contentScore 3)) 0).2 =
        OpResult.ok resp) ∧
    (∃ fs, dget? (runChats (create_session svc0 jordanRequest "system prompt"
          "bootstrap prompt" "sid-1" (GatewayResult.ok (contentScore 3)) 0).1
          "sid-1" callsW).sessions "sid-1" = some fs ∧
      dget? (running_scores fs) "data_analysis" =
        some (((contribsOf (contentScore 3) "data_analysis").sum +
            (callsW.map (fun e => (contribsOf e.2.1 "data_analysis").sum)).sum) /
          (((contribsOf (contentScore 3) "data_analysis").length +
            (callsW.map
              (fun e => (contribsOf e.2.1 "data_analysis").length)).sum : ℕ) : ℚ))) ∧
    (∀ calls2, calls2.Perm callsW →
      ∃ fs2, dget? (runChats (create_session svc0 jordanRequest "system prompt"
            "bootstrap prompt" "sid-1" (GatewayResult.ok (contentScore 3)) 0).1
            "sid-1" calls2).sessions "sid-1" = some fs2 ∧
        dget? (running_scores fs2) "data_analysis" =
          some (((contribsOf (contentScore 3) "data_analysis").sum +
              (callsW.map (fun e => (contribsOf e.2.1 "data_analysis").sum)).sum) /
            (((contribsOf (contentScore 3) "data_analysis").length +
              (callsW.map
                (fun e => (contribsOf e.2.1 "data_analysis").length)).sum : ℕ) : ℚ)))) :=
  ⟨rfl, by decide, by decide,
    C2_running_average svc0 jordanRequest "system prompt" "bootstrap prompt"
      "sid-1" (contentScore 3) 0 callsW "data_analysis" rfl (by decide)
      (by decide)⟩

/-! C3.  Concrete scenario: create a session for Jordan with the Gateway
scoring data_analysis 3 in the first turn evaluation, then two chat calls,
the second scoring data_analysis 5.  The running averages behave as
claimed (3.0 then 4.0), but create_session itself records the bootstrap
turn in the transcript (interview_service.py line 127), so after the
second chat call the transcript holds three turns and the response
reports total_turns = 3, not 2. -/

/-- Gateway content of the creation call: first turn evaluation carries
rubric_scores scoring data_analysis 3. -/
def bootstrapContent : GatewayContent :=
  { interviewer_message := some "Welcome to the interview."
    evaluation := some
      { summary := some "Initial calibration."
        strengths := some []
        gaps := some []
        rubric_scores := some [("data_analysis", JsonVal.num 3)]
        recommendation := some "awaiting_candidate" }
    next_best_action := some "ask_first_question" }

/-- Gateway content of the first chat call: an evaluation with no rubric
scores. -/
def chatOneContent : GatewayContent :=
  { interviewer_message := some "Describe your pivot table approach."
    evaluation := some
      { summary := some "No scored answer yet."
        strengths := some []
        gaps := some []
        rubric_scores := some []
        recommendation := some "awaiting_candidate" }
    next_best_action := some "continue" }

/-- The scenario: session created with id sid-1. -/
def scenarioCreate : InterviewService × OpResult SessionCreateResponse :=
  create_session svc0 jordanRequest "system prompt" "bootstrap prompt" "sid-1"
    (GatewayResult.ok bootstrapContent) 0

/-- First chat call of the scenario. -/
def scenarioChat1 : InterviewService × OpResult ChatResponse :=
  chat scenarioCreate.1 "sid-1" "I would start with a pivot table."
    (GatewayResult.ok chatOneContent) 1

/-- Second chat call of the scenario, scoring data_analysis 5. -/
def scenarioChat2 : InterviewService × OpResult ChatResponse :=
  chat scenarioChat1.1 "sid-1" "Here is the finished analysis."
    (GatewayResult.ok (contentScore 5)) 2

/-- C3 counterexample: in the concrete scenario the second chat call
returns total_turns = 3 (bootstrap turn plus two chat turns), not 2 as the
claim states. -/
theorem C3_counterexample :
    (match scenarioChat2.2 with
     | OpResult.ok r => some r.total_turns
     | OpResult.err _ => none) = some 3 ∧
    (match scenarioChat2.2 with
     | OpResult.ok r => some r.total_turns
     | OpResult.err _ => none) ≠ some 2 := by
  norm_num +decide [scenarioChat2, scenarioChat1, scenarioCreate, chat, create_session,
    new_session, record_ai_turn, rubricValidate, coerceFloat, numInj,
    record_scores, record_scores_aux, seedSkills, dsetdefault,
    dset, dget?, dgetD, contentScore, chatOneContent, bootstrapContent,
    jordanRequest, svc0, SKILL_RUBRIC_KEYS, SKILL_RUBRIC, isNumeric, floatValue]

/-- C3 (amended): in the concrete scenario the first chat call returns
running_scores with data_analysis 3.0 and the second chat call returns
running_scores with data_analysis 4.0 and total_turns = 3 (the bootstrap
turn recorded at creation plus the two chat turns). -/
theorem C3_scenario :
    (match scenarioChat1.2 with
     | OpResult.ok r => some r.running_scores
     | OpResult.err _ => none) = some [("data_analysis", (3 : ℚ))] ∧
    (match scenarioChat2.2 with
     | OpResult.ok r => some (r.running_scores, r.total_turns)
     | OpResult.err _ => none) = some ([("data_analysis", (4 : ℚ))], 3) := by
  norm_num +decide [scenarioChat2, scenarioChat1, scenarioCreate, chat, create_session,
    new_session, record_ai_turn, rubricValidate, coerceFloat, numInj,
    record_scores, record_scores_aux, running_scores,
    running_scores_list, seedSkills, dsetdefault, dset, dget?, dgetD,
    contentScore, chatOneContent, bootstrapContent, jordanRequest, svc0,
    SKILL_RUBRIC_KEYS, SKILL_RUBRIC, isNumeric, floatValue]

/-- Gateway content mixing a non-coercible data_analysis score value with
a numeric storytelling score. -/
def mixedContent : GatewayContent :=
  { interviewer_message := some "Noted."
    evaluation := some
      { summary := some "Mixed feedback."
        strengths := some ["clear"]
        gaps := some []
        rubric_scores := some
          [("data_analysis", JsonVal.str "excellent"),
           ("storytelling", JsonVal.num 4)]
        recommendation := some "continue" }
    next_best_action := none }

/-- C4 (the code evaluated at the failing input): a chat call whose
Gateway evaluation carries the non-coercible rubric value "excellent" for
data_analysis raises the pydantic ValidationError of EvaluationSnapshot
(rubric_scores is typed dict[str, float]) instead of silently skipping the
entry: the call fails, no turn is appended and no score changes, and even
the numeric storytelling score of the same evaluation is discarded.  The
isinstance skip inside record_scores, which the claim describes, is never
reached on this path. -/
theorem C4_pydantic_validation_rejects :
    (chat svcW "s" "my answer" (GatewayResult.ok mixedContent) 7).2 =
      OpResult.err SvcError.evaluationValidationError ∧
    (dget? (chat svcW "s" "my answer" (GatewayResult.ok mixedContent) 7).1.sessions
        "s").map (fun fs => (fs.score_totals, fs.score_counts, fs.transcript)) =
      some (sessW.score_totals, sessW.score_counts, sessW.transcript) := by
  decide

theorem running_scores_list_isSome_iff (totals : List (String × ℚ))
    (counts : List (String × ℕ)) (S : String)
    (hnd : NodupKeys totals)
    (hiff : (dget? totals S).isNone ↔ (dget? counts S).isNone) :
    ((dget? (running_scores_list totals counts) S).isSome ↔
      0 < dgetD counts S 0) := by
  rw [running_scores_list_lookup _ _ _ hnd]
  cases hT : dget? totals S with
  | none =>
      have hC : dget? counts S = none := by
        have h1 : (dget? counts S).isNone = true := hiff.mp (by rw [hT]; rfl)
        exact Option.isNone_iff_eq_none.mp h1
      simp [hC, dgetD]
  | some t =>
      cases hC : dget? counts S with
      | none =>
          exfalso
          have h1 : (dget? totals S).isNone = true := hiff.mpr (by rw [hC]; rfl)
          rw [hT] at h1
          cases h1
      | some n =>
          cases n with
          | zero => simp [dgetD, hC]
          | succ m => simp [dgetD, hC]

/-- C5: when a chat turn is actually recorded — the Gateway content
passes the evaluation validation, so _record_ai_turn runs to completion
and the call returns ok — every skill of the static rubric catalog is
present as a key of the score totals and counts dicts (seeded at zero when
unscored), the dict invariants are preserved, and running_scores contains
exactly the skills whose count is strictly positive.  The seeding runs at
the end of every recorded turn, so this holds after the first recorded
turn and is preserved by every later one. -/
theorem C5_rubric_catalog_seeded (svc : InterviewService)
    (session_id message : String) (sess : InterviewSession)
    (c : GatewayContent) (now : ℕ) (l : List (String × ℚ))
    (h : dget? svc.sessions session_id = some sess)
    (hv : validRubricOf c = some l)
    (hnt : NodupKeys sess.score_totals) (hnc : NodupKeys sess.score_counts)
    (hiff : ∀ k, (dget? sess.score_totals k).isNone ↔
      (dget? sess.score_counts k).isNone) :
    ∃ fs,
      dget? (chat svc session_id message (GatewayResult.ok c) now).1.sessions
          session_id = some fs ∧
      (∃ r, (chat svc session_id message (GatewayResult.ok c) now).2 =
        OpResult.ok r) ∧
      (∀ sk ∈ SKILL_RUBRIC_KEYS,
        (dget? fs.score_totals sk).isSome ∧ (dget? fs.score_counts sk).isSome) ∧
      NodupKeys fs.score_totals ∧ NodupKeys fs.score_counts ∧
      (∀ k, (dget? fs.score_totals k).isNone ↔ (dget? fs.score_counts k).isNone) ∧
      (∀ S, (dget? (running_scores fs) S).isSome ↔ 0 < dgetD fs.score_counts S 0) := by
  obtain ⟨r, hr, h1, h2⟩ :=
    chat_valid_lookup svc session_id message c now sess l h hv
  refine ⟨r.1, h1, ⟨_, h2⟩, ?_, ?_, ?_, ?_, ?_⟩
  · intro sk hsk
    exact record_ai_turn_rubric_isSome
      { sess with messages := sess.messages ++ [{ role := "user", content := message }] }
      c _ now l r sk hv hr hsk
  · exact record_ai_turn_nodup_totals
      { sess with messages := sess.messages ++ [{ role := "user", content := message }] }
      c _ now l r hv hr hnt
  · exact record_ai_turn_nodup_counts
      { sess with messages := sess.messages ++ [{ role := "user", content := message }] }
      c _ now l r hv hr hnc
  · intro k
    exact record_ai_turn_isNone
      { sess with messages := sess.messages ++ [{ role := "user", content := message }] }
      c _ now l r k hv hr (hiff k)
  · intro S
    rw [running_scores]
    exact running_scores_list_isSome_iff _ _ S
      (record_ai_turn_nodup_totals
        { sess with messages := sess.messages ++ [{ role := "user", content := message }] }
        c _ now l r hv hr hnt)
      (record_ai_turn_isNone
        { sess with messages := sess.messages ++ [{ role := "user", content := message }] }
        c _ now l r S hv hr (hiff S))

/-- C5 witness: the theorem applied at a concrete input whose evaluation
passes validation. -/
theorem C5_rubric_catalog_seeded_witness :
    dget? svcW.sessions "s" = some sessW ∧
    validRubricOf (contentScore 3) = some [("data_analysis", (3 : ℚ))] ∧
    NodupKeys sessW.score_totals ∧ NodupKeys sessW.score_counts ∧
    (∀ k, (dget? sessW.score_totals k).isNone ↔
      (dget? sessW.score_counts k).isNone) ∧
    (∃ fs,
      dget? (chat svcW "s" "hello" (GatewayResult.ok (contentScore 3)) 1).1.sessions
          "s" = some fs ∧
      (∃ r, (chat svcW "s" "hello" (GatewayResult.ok (contentScore 3)) 1).2 =
        OpResult.ok r) ∧
      (∀ sk ∈ SKILL_RUBRIC_KEYS,
        (dget? fs.score_totals sk).isSome ∧ (dget? fs.score_counts sk).isSome) ∧
      NodupKeys fs.score_totals ∧ NodupKeys fs.score_counts ∧
      (∀ k, (dget? fs.score_totals k).isNone ↔ (dget? fs.score_counts k).isNone) ∧
      (∀ S, (dget? (running_scores fs) S).isSome ↔ 0 < dgetD fs.score_counts S 0)) :=
  ⟨rfl, rfl, by simp [sessW, NodupKeys], by simp [sessW, NodupKeys],
    fun k => Iff.rfl,
    C5_rubric_catalog_seeded svcW "s" "hello" sessW (contentScore 3) 1
      [("data_analysis", (3 : ℚ))] rfl rfl
      (by simp [sessW, NodupKeys]) (by simp [sessW, NodupKeys])
      (fun k => Iff.rfl)⟩

/-- C6: for an existing session, store_file_artifact rejects with a
ValidationError exactly when the lower-cased filename extension is outside
the allowed spreadsheet set or the byte length strictly exceeds the
configured maximum (DEFAULT_MAX_UPLOAD_BYTES = 10 MiB by default); when
the extension is allowed and the length is at most the maximum (including
equality) the call succeeds. -/
theorem C6_file_artifact_validation (svc : InterviewService)
    (session_id filename : String) (content_type : Option String)
    (data : List ℕ) (description : Option String) (artifact_id : String)
    (now : ℕ) (sess : InterviewSession)
    (h : dget? svc.sessions session_id = some sess) :
    ((∃ m, (store_file_artifact svc session_id filename content_type data
        description artifact_id now).2 =
        OpResult.err (SvcError.validationError m)) ↔
      ((pySuffix filename).toLower ∉ ALLOWED_FILE_EXTENSIONS ∨
        data.length > svc.max_upload_bytes)) ∧
    ((pySuffix filename).toLower ∈ ALLOWED_FILE_EXTENSIONS ∧
        data.length ≤ svc.max_upload_bytes →
      ∃ a, (store_file_artifact svc session_id filename content_type data
        description artifact_id now).2 = OpResult.ok a) := by
  by_cases hext : (pySuffix filename).toLower ∈ ALLOWED_FILE_EXTENSIONS
  · by_cases hlen : data.length > svc.max_upload_bytes
    · constructor
      · simp [store_file_artifact, h, hext, hlen]
      · intro hcontra
        exact absurd hlen (not_lt.mpr hcontra.2)
    · constructor
      · simp [store_file_artifact, h, hext, hlen]
      · intro hok
        refine ⟨{ id := artifact_id, source := ArtifactSource.file,
                  filename := some (pathName filename),
                  content_type := content_type,
                  size_bytes := some data.length, uploaded_at := now,
                  description := (description.getD "").trim, url := none,
                  storage_path := some (svc.storage_dir ++ "/" ++ session_id ++
                    "/" ++ artifact_id ++ (pySuffix filename).toLower) }, ?_⟩
        simp only [store_file_artifact, h]
        rw [if_neg (not_not_intro hext), if_neg hlen]
  · constructor
    · simp [store_file_artifact, h, hext]
    · intro hcontra
      exact absurd hcontra.1 hext

/-- A service like svcW whose configured upload maximum is 4 bytes. -/
def svcW6 : InterviewService :=
  { sessions := [("s", sessW)]
    storage_dir := "uploads"
    max_upload_bytes := 4 }

/-- C6 witness: the theorem applied at a concrete input (a .txt upload
against the 4-byte-limit service). -/
theorem C6_file_artifact_validation_witness :
    dget? svcW6.sessions "s" = some sessW ∧
    (((∃ m, (store_file_artifact svcW6 "s" "notes.txt" none [1, 2, 3]
        none "a1" 3).2 = OpResult.err (SvcError.validationError m)) ↔
      ((pySuffix "notes.txt").toLower ∉ ALLOWED_FILE_EXTENSIONS ∨
        ([1, 2, 3] : List ℕ).length > svcW6.max_upload_bytes)) ∧
    ((pySuffix "notes.txt").toLower ∈ ALLOWED_FILE_EXTENSIONS ∧
        ([1, 2, 3] : List ℕ).length ≤ svcW6.max_upload_bytes →
      ∃ a, (store_file_artifact svcW6 "s" "notes.txt" none [1, 2, 3]
        none "a1" 3).2 = OpResult.ok a)) :=
  ⟨rfl, C6_file_artifact_validation svcW6 "s" "notes.txt" none [1, 2, 3]
    none "a1" 3 sessW rfl⟩

/-- C7: for an existing session, store_link_artifact trims the URL and
rejects with a ValidationError exactly when the trimmed URL is empty or
does not start (case-insensitively) with the http or https scheme; on
success the recorded Link artifact stores the trimmed URL, whose
lower-casing starts with http:// or https://. -/
theorem C7_link_artifact_validation (svc : InterviewService)
    (session_id url : String) (description : Option String)
    (artifact_id : String) (now : ℕ) (sess : InterviewSession)
    (h : dget? svc.sessions session_id = some sess) :
    ((∃ m, (store_link_artifact svc session_id url description artifact_id
        now).2 = OpResult.err (SvcError.validationError m)) ↔
      (url.trim.isEmpty ||
        !(url.trim.toLower.startsWith "http://" ||
          url.trim.toLower.startsWith "https://")) = true) ∧
    (∀ a, (store_link_artifact svc session_id url description artifact_id
        now).2 = OpResult.ok a →
      a.url = some url.trim ∧
      (url.trim.toLower.startsWith "http://" ||
        url.trim.toLower.startsWith "https://") = true) := by
  cases hcond : (url.trim.isEmpty ||
      !(url.trim.toLower.startsWith "http://" ||
        url.trim.toLower.startsWith "https://")) with
  | true =>
      have hres : (store_link_artifact svc session_id url description
          artifact_id now).2 = OpResult.err (SvcError.validationError
          "Provide a valid shareable link starting with http:// or https://") := by
        simp only [store_link_artifact, h]
        rw [hcond]
        rfl
      refine ⟨⟨fun _ => rfl, fun _ => ⟨_, hres⟩⟩, ?_⟩
      intro a ha
      rw [hres] at ha
      simp at ha
  | false =>
      have hres : (store_link_artifact svc session_id url description
          artifact_id now).2 = OpResult.ok
          { id := artifact_id, source := ArtifactSource.link, filename := none,
            content_type := none, size_bytes := none, uploaded_at := now,
            description := (description.getD "").trim, url := some url.trim,
            storage_path := none } := by
        simp only [store_link_artifact, h]
        rw [hcond]
        rfl
      constructor
      · constructor
        · rintro ⟨m, hm⟩
          rw [hres] at hm
          simp at hm
        · intro hcontra
          exact Bool.noConfusion hcontra
      · intro a ha
        rw [hres] at ha
        simp only [OpResult.ok.injEq] at ha
        subst ha
        refine ⟨rfl, ?_⟩
        cases hb : (url.trim.toLower.startsWith "http://" ||
            url.trim.toLower.startsWith "https://") with
        | true => rfl
        | false =>
            rw [hb] at hcond
            simp at hcond

/-- C7 witness: the theorem applied at the concrete URL https://x. -/
theorem C7_link_artifact_validation_witness :
    dget? svcW.sessions "s" = some sessW ∧
    (((∃ m, (store_link_artifact svcW "s" "https://x" none "a2" 4).2 =
        OpResult.err (SvcError.validationError m)) ↔
      (("https://x".trim.isEmpty ||
        !("https://x".trim.toLower.startsWith "http://" ||
          "https://x".trim.toLower.startsWith "https://")) = true)) ∧
    (∀ a, (store_link_artifact svcW "s" "https://x" none "a2" 4).2 =
        OpResult.ok a →
      a.url = some "https://x".trim ∧
      ("https://x".trim.toLower.startsWith "http://" ||
        "https://x".trim.toLower.startsWith "https://") = true)) :=
  ⟨rfl, C7_link_artifact_validation svcW "s" "https://x" none "a2" 4 sessW rfl⟩

/-- C8: summarize performs no mutation: the service state after the call
is the one before it, so the message history, transcript, score dicts and
artifact mapping of the addressed session are unchanged and no turn is
appended to the transcript. -/
theorem C8_summarize_no_mutation (svc : InterviewService) (session_id : String)
    (sess : InterviewSession) (gw : GatewayResult SummaryContent)
    (h : dget? svc.sessions session_id = some sess) :
    (summarize svc session_id gw).1 = svc ∧
    dget? (summarize svc session_id gw).1.sessions session_id = some sess := by
  have h1 : (summarize svc session_id gw).1 = svc := by
    cases gw <;> simp [summarize, h]
  exact ⟨h1, by rw [h1]; exact h⟩

/-- An all-absent summary content (the Gateway returned a JSON object with
none of the three expected top-level keys). -/
def emptySummary : SummaryContent :=
  { overall_summary := none, scorecard := none, next_steps := none }

/-- C8 witness: the theorem applied at a concrete input. -/
theorem C8_summarize_no_mutation_witness :
    dget? svcW.sessions "s" = some sessW ∧
    ((summarize svcW "s" (GatewayResult.ok emptySummary)).1 = svcW ∧
      dget? (summarize svcW "s" (GatewayResult.ok emptySummary)).1.sessions "s" =
        some sessW) :=
  ⟨rfl, C8_summarize_no_mutation svcW "s" sessW (GatewayResult.ok emptySummary) rfl⟩

/-- C9: every operation addressed at a session id absent from the store
(the store keys are exactly the ids handed out by create_session) fails
with the session-not-found error and returns the store unchanged. -/
theorem C9_unknown_session (svc : InterviewService)
    (session_id message artifact_id : String)
    (gwc : GatewayResult GatewayContent) (gws : GatewayResult SummaryContent)
    (now : ℕ)
    (h : dget? svc.sessions session_id = none) :
    chat svc session_id message gwc now =
      (svc, OpResult.err (SvcError.sessionNotFound session_id)) ∧
    summarize svc session_id gws =
      (svc, OpResult.err (SvcError.sessionNotFound session_id)) ∧
    list_artifacts svc session_id =
      (svc, OpResult.err (SvcError.sessionNotFound session_id)) ∧
    get_artifact svc session_id artifact_id =
      (svc, OpResult.err (SvcError.sessionNotFound session_id)) := by
  refine ⟨?_, ?_, ?_, ?_⟩ <;>
    simp [chat, summarize, list_artifacts, get_artifact, h]

/-- C9 witness: the theorem applied to the empty service store. -/
theorem C9_unknown_session_witness :
    dget? svc0.sessions "ghost" = none ∧
    (chat svc0 "ghost" "hi" GatewayResult.failed 0 =
      (svc0, OpResult.err (SvcError.sessionNotFound "ghost")) ∧
    summarize svc0 "ghost" (GatewayResult.ok emptySummary) =
      (svc0, OpResult.err (SvcError.sessionNotFound "ghost")) ∧
    list_artifacts svc0 "ghost" =
      (svc0, OpResult.err (SvcError.sessionNotFound "ghost")) ∧
    get_artifact svc0 "ghost" "a1" =
      (svc0, OpResult.err (SvcError.sessionNotFound "ghost"))) :=
  ⟨rfl, C9_unknown_session svc0 "ghost" "hi" "a1" GatewayResult.failed
    (GatewayResult.ok emptySummary) 0 rfl⟩

/-- C10: when the Gateway summary response parses but lacks the
overall_summary, scorecard or next_steps keys, summarize still succeeds
and substitutes the empty string, the empty mapping and the empty list
respectively. -/
theorem C10_summary_defaults (svc : InterviewService) (session_id : String)
    (sess : InterviewSession) (content : SummaryContent)
    (h : dget? svc.sessions session_id = some sess) :
    ∃ resp, (summarize svc session_id (GatewayResult.ok content)).2 =
        OpResult.ok resp ∧
      (content.overall_summary = none → resp.final_summary = "") ∧
      (content.scorecard = none → resp.overall_scores = []) ∧
      (content.next_steps = none → resp.recommended_next_steps = []) := by
  refine ⟨{ session_id := session_id
            transcript := sess.transcript
            final_summary := content.overall_summary.getD ""
            recommended_next_steps := content.next_steps.getD []
            overall_scores := content.scorecard.getD [] }, ?_, ?_, ?_, ?_⟩
  · simp [summarize, h]
  · intro hh; simp [hh]
  · intro hh; simp [hh]
  · intro hh; simp [hh]

/-- C10 witness: the theorem applied with a summary content lacking all
three keys. -/
theorem C10_summary_defaults_witness :
    dget? svcW.sessions "s" = some sessW ∧
    (∃ resp, (summarize svcW "s" (GatewayResult.ok emptySummary)).2 =
        OpResult.ok resp ∧
      (emptySummary.overall_summary = none → resp.final_summary = "") ∧
      (emptySummary.scorecard = none → resp.overall_scores = []) ∧
      (emptySummary.next_steps = none → resp.recommended_next_steps = [])) :=
  ⟨rfl, C10_summary_defaults svcW "s" sessW emptySummary rfl⟩

end MockInterview
